import Mathlib

/-!
# Verification of the telegram_bot conversational-state and decision engine

Shallow embedding of the repository's core (message store, authorization
registry / whitelist, rolling digest keeper, trigger evaluator, dispatch
coordinator) translated from:

* `src/handlers/message_handler.py` (MessageDB, is_authorized, whitelist
  commands, handle_message),
* `src/handlers/criteria_handler.py` (maintain_criteria_summary,
  handle_criteria_check),
* `src/handlers/summarizer.py` (MAX_CHARS, MSG_SEPARATOR, prompts),
* `src/bot.py` (handler registration order).

Python strings are modeled as Lean `String` (a packed `List Char`); the
Python string methods used by the code (`str.lower`, `str.strip`,
`str.startswith`, the `in` substring test, `str.split(",")`, negative-index
slicing) are embedded below as executable functions on the character list.
External collaborators (the language-model completion calls) are passed in
as oracle functions `String → Except String String`, where `Except.error`
models a raised exception at the call site.  SQLite's `messages` table is
modeled as a list of rows; `INSERT OR REPLACE` on the `message_id` primary
key is the upsert on that list, and `ORDER BY date ASC` is a sort by the
`date` column.
-/

namespace TelegramBot

/-! ## Python string primitives -/

/-- Embedding of Python `str.lower` on one character (ASCII range, matching
the behavior the bot relies on: `'A'..'Z'` map to `'a'..'z'`). -/
def pyLowerChar (c : Char) : Char :=
  if 65 ≤ c.toNat ∧ c.toNat ≤ 90 then Char.ofNat (c.toNat + 32) else c

/-- Python `str.lower` on a character list. -/
def pyLowerList (l : List Char) : List Char := l.map pyLowerChar

/-- Python `str.lower`. -/
def strLower (s : String) : String := ⟨pyLowerList s.data⟩

/-- Python `str.strip` on a character list: drop whitespace from both ends. -/
def pyStripList (l : List Char) : List Char :=
  ((l.dropWhile Char.isWhitespace).reverse.dropWhile Char.isWhitespace).reverse

/-- Python `str.strip`. -/
def strTrim (s : String) : String := ⟨pyStripList s.data⟩

/-- Python substring containment `needle in hay` on character lists. -/
def isSub : List Char → List Char → Bool
  | n, [] => decide (n = [])
  | n, c :: t => decide ((c :: t).take n.length = n) || isSub n t

/-- Python `hay.startswith(needle)`. -/
def pyStartsWith (needle hay : String) : Bool :=
  decide (hay.data.take needle.data.length = needle.data)

/-- Python negative-index slice `s[-n:]`: the last `n` characters of `s`
(the whole string when it is shorter than `n`). -/
def takeRightStr (n : Nat) (s : String) : String :=
  ⟨s.data.drop (s.data.length - n)⟩

/-- Python `str.split(",")` on a character list. -/
def pySplitComma : List Char → List (List Char)
  | [] => [[]]
  | c :: t =>
    if c = ',' then [] :: pySplitComma t
    else
      match pySplitComma t with
      | h :: r => (c :: h) :: r
      | [] => [[c]]

/-- The first whitespace-delimited token of a string (used to model which
command entity the transport layer recognizes at the start of a message). -/
def firstToken (s : String) : String :=
  ⟨s.data.takeWhile (fun c => !c.isWhitespace)⟩

/-! ## Authorization registry (`message_handler.py`, `is_authorized` and the
whitelist commands)

The whitelist JSON document `{"users": [...], "groups": [...]}` is the
`Whitelist` structure.  `load_whitelist`/`save_whitelist` are file I/O; the
embedding threads the whitelist value through explicitly and reports whether
`save_whitelist` was called. -/

structure TgUser where
  id : Int
  username : Option String
  is_bot : Bool
deriving DecidableEq, Repr

structure TgChat where
  id : Int
  chatType : String
deriving DecidableEq, Repr

structure Whitelist where
  users : List String
  groups : List String
deriving DecidableEq, Repr

/-- Result of one `is_authorized` call: the returned boolean, the whitelist
state after the call, and whether `save_whitelist` was invoked. -/
structure AuthResult where
  auth : Bool
  wl : Whitelist
  saved : Bool
deriving DecidableEq, Repr

/-- Python truthiness of an optional string (`None` and `""` are falsy),
as used by `user.username and ...`. -/
def truthy : Option String → Bool
  | none => false
  | some s => decide (s ≠ "")

/-- The group-membership fallback at the end of `is_authorized`:
`if chat and str(chat.id) in whitelist.get("groups", [])`. -/
def groupCheck (chat : Option TgChat) (wl : Whitelist) : AuthResult :=
  match chat with
  | some c => if toString c.id ∈ wl.groups then ⟨true, wl, false⟩ else ⟨false, wl, false⟩
  | none => ⟨false, wl, false⟩

/-- `is_authorized(user, chat)` from `message_handler.py` (lines 249-277),
with the loaded whitelist passed in and the possibly-rewritten whitelist
returned.  Decision order: (1) numeric id already whitelisted; (2) username
whitelisted, in which case the username entry is removed, the decimal id is
appended if absent, and the whitelist is saved; (3) username pre-whitelisted
(read-only list from the environment); (4) chat id whitelisted as a group. -/
def is_authorized (pre : List String) (u : TgUser) (chat : Option TgChat)
    (wl : Whitelist) : AuthResult :=
  if toString u.id ∈ wl.users then ⟨true, wl, false⟩
  else
    match u.username with
    | some un =>
      if un ≠ "" ∧ un ∈ wl.users then
        let users1 := wl.users.erase un
        let users2 := if toString u.id ∈ users1 then users1 else users1 ++ [toString u.id]
        ⟨true, ⟨users2, wl.groups⟩, true⟩
      else if un ≠ "" ∧ un ∈ pre then ⟨true, wl, false⟩
      else groupCheck chat wl
    | none => groupCheck chat wl

/-! ## Message store (`message_handler.py`, class `MessageDB`)

The SQLite table `messages` is a list of `Row`s; `store_message` performs
the `INSERT OR REPLACE` keyed on the `message_id` primary key. -/

structure Row where
  message_id : Int
  chat_id : Int
  user_id : Option Int
  username : Option String
  message_type : String
  content : String
  file_id : Option String
  date : Int
  reply_to_message_id : Option Int
  is_bot : Bool
deriving DecidableEq, Repr

structure TgPhoto where
  file_id : String
deriving DecidableEq, Repr

structure TgDocument where
  file_id : String
deriving DecidableEq, Repr

/-- The inbound platform message object, with the fields `store_message`
reads.  `date` is already the integer `int(message.date.timestamp())`, and
`reply_to_message` is modeled by the replied-to message id. -/
structure TgMessage where
  message_id : Int
  chat_id : Int
  text : Option String
  photo : List TgPhoto
  document : Option TgDocument
  caption : Option String
  reply_to_message : Option Int
  date : Int
  from_user : Option TgUser
deriving DecidableEq, Repr

/-- Field derivation of `store_message` (lines 96-150): the stored row's
type/content/file_id depend on whether a photo or document is attached
(caption replaces text in those cases, the last photo size is kept), and
user fields fall back to NULL/false for messages without a sender. -/
def messageRow (m : TgMessage) : Row :=
  let textContent := m.text.getD ""
  let cap := m.caption.getD ""
  let triple : String × String × Option String :=
    if m.photo ≠ [] then ("photo", cap, m.photo.getLast?.map TgPhoto.file_id)
    else
      match m.document with
      | some d => ("document", cap, some d.file_id)
      | none => ("text", textContent, none)
  { message_id := m.message_id
    chat_id := m.chat_id
    user_id := m.from_user.map TgUser.id
    username := m.from_user.bind TgUser.username
    message_type := triple.1
    content := triple.2.1
    file_id := triple.2.2
    date := m.date
    reply_to_message_id := m.reply_to_message
    is_bot := (m.from_user.map TgUser.is_bot).getD false }

/-- `store_message`: `INSERT OR REPLACE INTO messages ... (message_id
PRIMARY KEY)` — any existing row with the same id is replaced. -/
def store_message (db : List Row) (m : TgMessage) : List Row :=
  db.filter (fun r => decide (r.message_id ≠ m.message_id)) ++ [messageRow m]

/-- The `WHERE` clause of `get_messages_in_chat_since`:
`chat_id = ? AND date >= ? AND content != ''`. -/
def rowSincePred (chat ts : Int) (r : Row) : Bool :=
  decide (r.chat_id = chat) && decide (ts ≤ r.date) && decide (r.content ≠ "")

/-- `display_name = username if username else 'Anonymous'`. -/
def displayNameOf (username : Option String) : String :=
  match username with
  | some s => if s = "" then "Anonymous" else s
  | none => "Anonymous"

/-- The per-row rendering of `get_messages_in_chat_since` (line 188):
`f"{display_name} ({datetime.datetime.fromtimestamp(date)}): {content}"`.
The wall-clock rendering `datetime.datetime.fromtimestamp` is
environment-dependent (local timezone), so it is a parameter `fmt`. -/
def formatMessageRow (fmt : Int → String) (r : Row) : String :=
  displayNameOf r.username ++ " (" ++ fmt r.date ++ "): " ++ r.content

/-- `ORDER BY date ASC` comparison on rows. -/
def dateLe (a b : Row) : Prop := a.date ≤ b.date

instance : DecidableRel dateLe := fun a b => inferInstanceAs (Decidable (a.date ≤ b.date))

instance : IsTotal Row dateLe := ⟨fun a b => Int.le_total a.date b.date⟩

instance : IsTrans Row dateLe := ⟨fun _ _ _ => Int.le_trans⟩

/-- `get_messages_in_chat_since(chat_id, timestamp)` (lines 157-191):
filter the table by chat, cutoff and non-empty content, order by ascending
date, and render each row. -/
def get_messages_in_chat_since (fmt : Int → String) (db : List Row)
    (chat ts : Int) : List String :=
  (List.insertionSort dateLe (db.filter (rowSincePred chat ts))).map (formatMessageRow fmt)

/-! ## Dispatch coordinator (`bot.py` lines 95-102 and
`message_handler.py::handle_message`)

`bot.py` registers, in order and in the same handler group:
`CommandHandler("whitelist", handle_whitelist_command)`,
`CommandHandler("whitelist_group", handle_whitelist_group_command)`, and
`MessageHandler(filters.ALL, handle_message)`.  Within one group the
framework runs only the first matching handler, so a message whose leading
command token is `/whitelist` or `/whitelist_group` is consumed by the
dedicated command handler and never reaches `handle_message`.

The trace below records, in execution order, the events relevant to the
ordering claim: persisting the inbound message to the store
(`Event.store`, the `message_db.store_message(update.message)` call),
performing an authorization check (`Event.authCheck`, either
`is_authorized` or the core-user gate of `handle_whitelist_command`), and
invoking the trigger evaluator (`Event.triggerEval`,
`handle_criteria_check` — which `bot.py` never registers, so it is never
emitted).  Bot replies stored afterwards are not inbound messages and are
not traced. -/

inductive Event where
  | store
  | authCheck
  | triggerEval
deriving DecidableEq, Repr

/-- The command token the transport layer recognizes at the start of the
message text: the first whitespace-delimited token, with any `@botname`
suffix removed. -/
def cmdToken (t : String) : String :=
  ⟨(firstToken t).data.takeWhile (fun c => c ≠ '@')⟩

/-- Event trace of processing one inbound update that carries a message
with text `text` (`none` for attachment-only messages).  The three command
strings are the configured `/research`, `/summarize` and `/art` prefixes
checked inside `handle_message` (lines 486-494); `handle_whitelist_command`
checks its core-user authorization gate (lines 292-296) without storing the
inbound message, and `handle_whitelist_group_command` neither stores nor
checks authorization. -/
def dispatchTrace (researchCmd summarizeCmd artCmd : String)
    (text : Option String) : List Event :=
  match text with
  | some t =>
    if cmdToken t = "/whitelist" then [Event.authCheck]
    else if cmdToken t = "/whitelist_group" then []
    else
      Event.store ::
        (let ts := strTrim t
         if pyStartsWith researchCmd ts then [Event.authCheck]
         else if pyStartsWith summarizeCmd ts then [Event.authCheck]
         else if pyStartsWith artCmd ts then [Event.authCheck]
         else [])
  | none => [Event.store]

/-! ## Rolling digest keeper and trigger evaluator (`criteria_handler.py`)

`conversation_data` is a process-wide dict from chat id to per-chat state;
its lazy initialization to `{"message_count": 0, "summary": "",
"messages_for_summary": []}` is modeled by a total function with that
default.  The language-model collaborator (`llama_client.chat.completions
.create`) is an oracle `String → Except String String` taking the prompt;
`Except.error` models a raised exception. -/

structure ChatData where
  message_count : Nat
  summary : String
  messages_for_summary : List (String × String)
deriving DecidableEq, Repr

def ChatData.init : ChatData := ⟨0, "", []⟩

/-- The `conversation_data` dictionary. -/
def ConvData := Int → ChatData

def convInit : ConvData := fun _ => ChatData.init

def updateChat (d : ConvData) (c : Int) (cd : ChatData) : ConvData :=
  fun x => if x = c then cd else d x

/-- `MAX_CHARS = 100*(10**3)*4` from `summarizer.py`. -/
def MAX_CHARS : Nat := 100 * 10 ^ 3 * 4

/-- `MSG_SEPARATOR` from `summarizer.py`. -/
def MSG_SEPARATOR : String := "\n---New Message---\n"

/-- The digest-refresh prompt built in `maintain_criteria_summary`
(lines 159-162), identical to the `summarize_chat` prompt. -/
def summaryPrompt (chat_text : String) : String :=
  "Summarize the following chat:\n####CHAT_BEGIN####" ++ chat_text ++
    "\n####CHAT_END####\nYour summary should be no larger than two paragraphs of 4 sentences each."

/-- Result of one `maintain_criteria_summary` call: the new
`conversation_data`, whether a refresh request was issued to the
language-model collaborator, and the prompt of that request. -/
structure MaintainResult where
  data : ConvData
  refreshIssued : Bool
  refreshPrompt : Option String

/-- `maintain_criteria_summary(chat_id, username, message_text)`
(lines 133-174): lazily initialize the chat state, increment
`message_count`, append the `(username, text)` pair, and — whenever the new
count is a multiple of 10 — join the entire accumulated window with
`MSG_SEPARATOR`, keep the last `MAX_CHARS` characters, and ask the
collaborator for a fresh summary.  The returned text replaces `summary`;
an exception is caught and leaves `summary` unchanged (the count and window
updates persist either way). -/
def maintain_criteria_summary (complete : String → Except String String)
    (data : ConvData) (chat : Int) (username message_text : String) : MaintainResult :=
  let cd0 := data chat
  let cd1 : ChatData :=
    ⟨cd0.message_count + 1, cd0.summary, cd0.messages_for_summary ++ [(username, message_text)]⟩
  if cd1.message_count % 10 = 0 then
    let all_messages := cd1.messages_for_summary.map (fun p => p.1 ++ ": " ++ p.2)
    let chat_text := takeRightStr MAX_CHARS (String.intercalate MSG_SEPARATOR all_messages)
    let prompt := summaryPrompt chat_text
    match complete prompt with
    | Except.ok s =>
      ⟨updateChat data chat ⟨cd1.message_count, s, cd1.messages_for_summary⟩, true, some prompt⟩
    | Except.error _ => ⟨updateChat data chat cd1, true, some prompt⟩
  else ⟨updateChat data chat cd1, false, none⟩

/-- Iterate `maintain_criteria_summary` over a list of `(username, text)`
messages for one chat, collecting the per-message refresh flags. -/
def runFlags (complete : String → Except String String) (data : ConvData)
    (chat : Int) : List (String × String) → List Bool
  | [] => []
  | (u, t) :: rest =>
    let r := maintain_criteria_summary complete data chat u t
    r.refreshIssued :: runFlags complete r.data chat rest

/-- `user_name = user.username if user and user.username else "Anonymous"`. -/
def anonymousName (user : Option TgUser) : String :=
  match user with
  | some u =>
    match u.username with
    | some s => if s = "" then "Anonymous" else s
    | none => "Anonymous"
  | none => "Anonymous"

/-- The criteria-judgment prompt built in `handle_criteria_check`
(lines 88-102). -/
def judgmentPromptOf (conversation_summary user_name message_text criteria : String) : String :=
  "\nWe have a conversation summary so far:\n" ++ conversation_summary ++
    "\n\nA new user message from " ++ user_name ++ " is:\n\x22" ++ message_text ++
    "\x22\n\nWe have the following criteria:\n" ++ criteria ++
    "\n\nRespond ONLY with:\n  YES: <some query here>   (if the criteria is met)\n  NO                       (if criteria not met)\nNo extra text, no explanation.\n"

/-- Parsing of the model reply (lines 117-126): strip the reply, test for
the `YES:` prefix, strip the remainder, and fall back to the whole message
text when the remainder is empty; any other reply means no action. -/
def parseJudgment (reply message_text : String) : Option String :=
  let tr := strTrim reply
  if tr.data.take 4 = "YES:".data then
    let query_part := strTrim ⟨tr.data.drop 4⟩
    some (if query_part = "" then message_text else query_part)
  else none

/-- Observables of one `handle_criteria_check` call: the new
`conversation_data`, whether/with which prompt a digest refresh was issued,
whether/with which prompt the criteria-judgment model call was issued, the
digest text that was embedded in the judgment prompt, and the decision
(`some query` means the auto-response action fires with that query). -/
structure CriteriaResult where
  data : ConvData
  refreshIssued : Bool
  refreshPrompt : Option String
  judgmentIssued : Bool
  judgmentPrompt : Option String
  digestUsed : Option String
  decision : Option String

/-- `handle_criteria_check` (lines 46-130) for an update that carries a
message: honor `DISABLE_AUTO_RESPONSES`; update the rolling summary first;
scan the lowercased+stripped text for any configured keyword and, on a
match, act with the full original message text as the query without any
judgment call; otherwise read the (just-updated) summary, build the
judgment prompt, call the model, and parse its reply; an exception from the
model call is caught and results in no action. -/
def handle_criteria_check (disable : Bool) (kws : List String) (criteria : String)
    (summComplete judgeComplete : String → Except String String)
    (data : ConvData) (chat : Int) (user : Option TgUser) (text : Option String) :
    CriteriaResult :=
  if disable then ⟨data, false, none, false, none, none, none⟩
  else
    let user_name := anonymousName user
    let message_text := text.getD ""
    let message_text_lower := strTrim (strLower message_text)
    let mr := maintain_criteria_summary summComplete data chat user_name message_text
    let triggered := kws.any (fun kw => isSub kw.data message_text_lower.data)
    if triggered then
      ⟨mr.data, mr.refreshIssued, mr.refreshPrompt, false, none, none, some message_text⟩
    else
      let conversation_summary := (mr.data chat).summary
      let prompt := judgmentPromptOf conversation_summary user_name message_text criteria
      match judgeComplete prompt with
      | Except.ok resp =>
        ⟨mr.data, mr.refreshIssued, mr.refreshPrompt, true, some prompt,
          some conversation_summary, parseJudgment resp message_text⟩
      | Except.error _ =>
        ⟨mr.data, mr.refreshIssued, mr.refreshPrompt, true, some prompt,
          some conversation_summary, none⟩

/-- `KEYWORDS_LIST = [k.strip().lower() for k in CRITERIA_KEYWORDS.split(",")
if k.strip()]` (line 31). -/
def keywordsList (raw : String) : List String :=
  (pySplitComma raw.data).filterMap fun k =>
    let ks := pyStripList k
    if ks = [] then none else some ⟨pyLowerList ks⟩

/-- The process invariant of the digest keeper: every chat's
`message_count` equals the length of its accumulated window. -/
def WindowInv (data : ConvData) : Prop :=
  ∀ c : Int, (data c).message_count = (data c).messages_for_summary.length

/-! ## Theorems -/

/-- C1: for a user whose handle (not numeric id) is whitelisted, the first
`is_authorized` call returns true, removes the handle entry, appends the
decimal id string, and persists; a second call with the same user returns
true via the id path and leaves the registry unchanged and unpersisted. -/
theorem C1_handle_migration (pre : List String) (u : TgUser) (chat : Option TgChat)
    (wl : Whitelist) (h : String)
    (hu : u.username = some h) (hne : h ≠ "") (hmem : h ∈ wl.users)
    (hid : toString u.id ∉ wl.users) (hcount : wl.users.count h = 1) :
    (is_authorized pre u chat wl).auth = true ∧
    (is_authorized pre u chat wl).saved = true ∧
    (is_authorized pre u chat wl).wl.users = wl.users.erase h ++ [toString u.id] ∧
    (is_authorized pre u chat wl).wl.groups = wl.groups ∧
    h ∉ (is_authorized pre u chat wl).wl.users ∧
    toString u.id ∈ (is_authorized pre u chat wl).wl.users ∧
    is_authorized pre u chat (is_authorized pre u chat wl).wl =
      ⟨true, (is_authorized pre u chat wl).wl, false⟩ := by
  have hid1 : toString u.id ∉ wl.users.erase h :=
    fun hx => hid (List.mem_of_mem_erase hx)
  have key : is_authorized pre u chat wl =
      ⟨true, ⟨wl.users.erase h ++ [toString u.id], wl.groups⟩, true⟩ := by
    unfold is_authorized
    rw [if_neg hid, hu]
    show (if h ≠ "" ∧ h ∈ wl.users then _ else _) = _
    rw [if_pos ⟨hne, hmem⟩]
    show (⟨true, ⟨if toString u.id ∈ wl.users.erase h then wl.users.erase h
        else wl.users.erase h ++ [toString u.id], wl.groups⟩, true⟩ : AuthResult) = _
    rw [if_neg hid1]
  have hnotin : h ∉ wl.users.erase h ++ [toString u.id] := by
    intro hx
    rcases List.mem_append.mp hx with hx | hx
    · have : wl.users.count h - 1 = 0 := by omega
      have hz : (wl.users.erase h).count h = 0 := by
        rw [List.count_erase_self, hcount]
      exact (List.count_eq_zero.mp hz) hx
    · have : h = toString u.id := List.mem_singleton.mp hx
      exact hid (this ▸ hmem)
  have hin : toString u.id ∈ wl.users.erase h ++ [toString u.id] :=
    List.mem_append.mpr (Or.inr (List.mem_singleton.mpr rfl))
  refine ⟨by rw [key], by rw [key], by rw [key], by rw [key], ?_, ?_, ?_⟩
  · rw [key]; exact hnotin
  · rw [key]; exact hin
  · rw [key]
    unfold is_authorized
    rw [if_pos hin]

/-- Concrete instance of C1: user id 42 with handle "alice", registry
`{users: ["alice"], groups: []}`. -/
theorem C1_witness :
    (is_authorized [] ⟨42, some "alice", false⟩ none ⟨["alice"], []⟩).auth = true ∧
    (is_authorized [] ⟨42, some "alice", false⟩ none ⟨["alice"], []⟩).saved = true ∧
    (is_authorized [] ⟨42, some "alice", false⟩ none ⟨["alice"], []⟩).wl.users =
      (["alice"] : List String).erase "alice" ++ [toString (42 : Int)] ∧
    (is_authorized [] ⟨42, some "alice", false⟩ none ⟨["alice"], []⟩).wl.groups = [] ∧
    "alice" ∉ (is_authorized [] ⟨42, some "alice", false⟩ none ⟨["alice"], []⟩).wl.users ∧
    toString (42 : Int) ∈
      (is_authorized [] ⟨42, some "alice", false⟩ none ⟨["alice"], []⟩).wl.users ∧
    is_authorized [] ⟨42, some "alice", false⟩ none
        (is_authorized [] ⟨42, some "alice", false⟩ none ⟨["alice"], []⟩).wl =
      ⟨true, (is_authorized [] ⟨42, some "alice", false⟩ none ⟨["alice"], []⟩).wl, false⟩ :=
  C1_handle_migration [] ⟨42, some "alice", false⟩ none ⟨["alice"], []⟩ "alice"
    rfl (by decide) (by decide) (by decide) (by decide)

/-- The refresh request is issued exactly when the incremented count is a
multiple of 10, whatever the collaborator replies. -/
theorem maintain_refreshIssued (complete : String → Except String String)
    (data : ConvData) (chat : Int) (u t : String) :
    (maintain_criteria_summary complete data chat u t).refreshIssued =
      decide (((data chat).message_count + 1) % 10 = 0) := by
  simp only [maintain_criteria_summary]
  split
  · next hmod => split <;> simp [hmod]
  · next hmod => simp [hmod]

/-- The per-chat count is incremented by every call, refresh or not,
succeeding or not. -/
theorem maintain_count (complete : String → Except String String)
    (data : ConvData) (chat : Int) (u t : String) :
    ((maintain_criteria_summary complete data chat u t).data chat).message_count =
      (data chat).message_count + 1 := by
  simp only [maintain_criteria_summary]
  split
  · split <;> simp [updateChat]
  · simp [updateChat]

/-- The accumulated window always grows by exactly the new pair; it is
never cleared. -/
theorem maintain_window (complete : String → Except String String)
    (data : ConvData) (chat : Int) (u t : String) :
    ((maintain_criteria_summary complete data chat u t).data chat).messages_for_summary =
      (data chat).messages_for_summary ++ [(u, t)] := by
  simp only [maintain_criteria_summary]
  split
  · split <;> simp [updateChat]
  · simp [updateChat]

/-- Other chats' state is untouched. -/
theorem maintain_at_other (complete : String → Except String String)
    (data : ConvData) (chat : Int) (u t : String) (c : Int) (hne : c ≠ chat) :
    (maintain_criteria_summary complete data chat u t).data c = data c := by
  simp only [maintain_criteria_summary]
  split
  · split <;> simp [updateChat, hne]
  · simp [updateChat, hne]

/-- When a refresh is issued, its prompt is built from the join of the whole
accumulated window (current pair included), truncated to the last
`MAX_CHARS` characters. -/
theorem maintain_prompt (complete : String → Except String String)
    (data : ConvData) (chat : Int) (u t : String)
    (hmod : ((data chat).message_count + 1) % 10 = 0) :
    (maintain_criteria_summary complete data chat u t).refreshPrompt =
      some (summaryPrompt (takeRightStr MAX_CHARS (String.intercalate MSG_SEPARATOR
        (((data chat).messages_for_summary ++ [(u, t)]).map fun p => p.1 ++ ": " ++ p.2)))) := by
  simp only [maintain_criteria_summary]
  rw [if_pos hmod]
  split <;> rfl

/-- On a boundary message, a returned text becomes the new summary. -/
theorem maintain_summary_ok (data : ConvData) (chat : Int) (u t s : String)
    (hmod : ((data chat).message_count + 1) % 10 = 0) :
    ((maintain_criteria_summary (fun _ => Except.ok s) data chat u t).data chat).summary = s := by
  unfold maintain_criteria_summary
  rw [if_pos hmod]
  simp [updateChat]

/-- On a boundary message whose collaborator call raises, the summary is
left unchanged. -/
theorem maintain_summary_err (data : ConvData) (chat : Int) (u t e : String)
    (hmod : ((data chat).message_count + 1) % 10 = 0) :
    ((maintain_criteria_summary (fun _ => Except.error e) data chat u t).data chat).summary =
      (data chat).summary := by
  unfold maintain_criteria_summary
  rw [if_pos hmod]
  simp [updateChat]

/-- Off a boundary, no request is made and the summary is unchanged. -/
theorem maintain_summary_off (complete : String → Except String String)
    (data : ConvData) (chat : Int) (u t : String)
    (hmod : ¬ ((data chat).message_count + 1) % 10 = 0) :
    ((maintain_criteria_summary complete data chat u t).data chat).summary =
      (data chat).summary := by
  unfold maintain_criteria_summary
  rw [if_neg hmod]
  simp [updateChat]

/-- C5: starting from a fresh chat, the `k`-th recorded message (counting
from 1) issues a digest refresh request exactly when `k` is a multiple of
10 — the 10th, 20th, 30th, ... message triggers, the others do not. -/
theorem C5_refresh_every_tenth (complete : String → Except String String)
    (chat : Int) (msgs : List (String × String)) (k : Nat) (hk : k < msgs.length) :
    ((runFlags complete convInit chat msgs).getD k false = true ↔ (k + 1) % 10 = 0) := by
  have general : ∀ (ms : List (String × String)) (data : ConvData) (j : Nat),
      j < ms.length →
      ((runFlags complete data chat ms).getD j false = true ↔
        ((data chat).message_count + j + 1) % 10 = 0) := by
    intro ms
    induction ms with
    | nil => intro data j hj; simp at hj
    | cons p rest ih =>
      intro data j hj
      obtain ⟨u, t⟩ := p
      match j with
      | 0 =>
        simp only [runFlags, List.getD_cons_zero]
        rw [maintain_refreshIssued]
        simp
      | Nat.succ j' =>
        have hj' : j' < rest.length := by simpa using hj
        simp only [runFlags, List.getD_cons_succ]
        rw [ih _ j' hj', maintain_count]
        omega
  have h0 : (convInit chat).message_count = 0 := rfl
  have := general msgs convInit k hk
  rw [h0] at this
  simpa using this

/-- Concrete instance of C5: with ten messages recorded in a fresh chat,
the tenth (index 9) triggers a refresh. -/
theorem C5_witness :
    9 < (List.replicate 10 ("u", "m")).length ∧
    ((runFlags (fun _ => Except.ok "sum") convInit 1
        (List.replicate 10 ("u", "m"))).getD 9 false = true ↔ (9 + 1) % 10 = 0) :=
  ⟨by decide, C5_refresh_every_tenth (fun _ => Except.ok "sum") 1
    (List.replicate 10 ("u", "m")) 9 (by decide)⟩

/-- C8: at a window boundary, whatever text the collaborator returns
becomes the digest unconditionally (in particular its own failure text),
and a refresh whose collaborator call raises still keeps the incremented
`message_count` (no rollback) while leaving the digest unchanged. -/
theorem C8_refresh_replaces_digest (data : ConvData) (chat : Int) (u t s e : String)
    (hmod : ((data chat).message_count + 1) % 10 = 0) :
    ((maintain_criteria_summary (fun _ => Except.ok s) data chat u t).data chat).summary = s ∧
    (maintain_criteria_summary (fun _ => Except.ok s) data chat u t).refreshIssued = true ∧
    ((maintain_criteria_summary (fun _ => Except.error e) data chat u t).data chat).message_count =
      (data chat).message_count + 1 ∧
    ((maintain_criteria_summary (fun _ => Except.error e) data chat u t).data chat).summary =
      (data chat).summary ∧
    (maintain_criteria_summary (fun _ => Except.error e) data chat u t).refreshIssued = true := by
  refine ⟨maintain_summary_ok data chat u t s hmod, ?_,
    maintain_count _ data chat u t, maintain_summary_err data chat u t e hmod, ?_⟩
  · rw [maintain_refreshIssued]; simp [hmod]
  · rw [maintain_refreshIssued]; simp [hmod]

/-- Concrete instance of C8: ninth message recorded, the tenth arrives and
the collaborator returns its own failure text, which becomes the digest. -/
theorem C8_witness :
    (((fun _ => (⟨9, "old digest", List.replicate 9 ("u", "m")⟩ : ChatData)) 1).message_count + 1) % 10 = 0 ∧
    ((maintain_criteria_summary (fun _ => Except.ok "An error occurred while summarizing the chat.")
        (fun _ => ⟨9, "old digest", List.replicate 9 ("u", "m")⟩) 1 "u" "t").data 1).summary =
      "An error occurred while summarizing the chat." ∧
    (maintain_criteria_summary (fun _ => Except.ok "An error occurred while summarizing the chat.")
        (fun _ => ⟨9, "old digest", List.replicate 9 ("u", "m")⟩) 1 "u" "t").refreshIssued = true ∧
    ((maintain_criteria_summary (fun _ => Except.error "boom")
        (fun _ => ⟨9, "old digest", List.replicate 9 ("u", "m")⟩) 1 "u" "t").data 1).message_count =
      ((fun _ => (⟨9, "old digest", List.replicate 9 ("u", "m")⟩ : ChatData)) (1 : Int)).message_count + 1 ∧
    ((maintain_criteria_summary (fun _ => Except.error "boom")
        (fun _ => ⟨9, "old digest", List.replicate 9 ("u", "m")⟩) 1 "u" "t").data 1).summary =
      ((fun _ => (⟨9, "old digest", List.replicate 9 ("u", "m")⟩ : ChatData)) (1 : Int)).summary ∧
    (maintain_criteria_summary (fun _ => Except.error "boom")
        (fun _ => ⟨9, "old digest", List.replicate 9 ("u", "m")⟩) 1 "u" "t").refreshIssued = true :=
  ⟨by decide, C8_refresh_replaces_digest
    (fun _ => ⟨9, "old digest", List.replicate 9 ("u", "m")⟩) 1 "u" "t"
    "An error occurred while summarizing the chat." "boom" (by decide)⟩

/-- C10: every `maintain_criteria_summary` call preserves the invariant
`message_count = window length`, only ever appends to the window (never
clears it), and every refresh request summarizes the join of the entire
accumulated history truncated to its last `MAX_CHARS` characters. -/
theorem C10_count_eq_window (complete : String → Except String String)
    (data : ConvData) (chat : Int) (u t : String) (hinv : WindowInv data) :
    WindowInv (maintain_criteria_summary complete data chat u t).data ∧
    ((maintain_criteria_summary complete data chat u t).data chat).messages_for_summary =
      (data chat).messages_for_summary ++ [(u, t)] ∧
    ((maintain_criteria_summary complete data chat u t).refreshIssued = true →
      (maintain_criteria_summary complete data chat u t).refreshPrompt =
        some (summaryPrompt (takeRightStr MAX_CHARS (String.intercalate MSG_SEPARATOR
          (((data chat).messages_for_summary ++ [(u, t)]).map fun p => p.1 ++ ": " ++ p.2))))) := by
  refine ⟨?_, maintain_window complete data chat u t, ?_⟩
  · intro c
    by_cases hc : c = chat
    · subst hc
      rw [maintain_count, maintain_window]
      simp [hinv c]
    · rw [maintain_at_other complete data chat u t c hc]
      exact hinv c
  · intro hfire
    rw [maintain_refreshIssued] at hfire
    exact maintain_prompt complete data chat u t (by simpa using hfire)

/-- Concrete instance of C10: recording a message in a fresh registry
preserves the invariant and appends to the window. -/
theorem C10_witness :
    WindowInv convInit ∧
    (WindowInv (maintain_criteria_summary (fun _ => Except.ok "s") convInit 1 "u" "t").data ∧
    ((maintain_criteria_summary (fun _ => Except.ok "s") convInit 1 "u" "t").data 1).messages_for_summary =
      (convInit 1).messages_for_summary ++ [("u", "t")] ∧
    ((maintain_criteria_summary (fun _ => Except.ok "s") convInit 1 "u" "t").refreshIssued = true →
      (maintain_criteria_summary (fun _ => Except.ok "s") convInit 1 "u" "t").refreshPrompt =
        some (summaryPrompt (takeRightStr MAX_CHARS (String.intercalate MSG_SEPARATOR
          (((convInit 1).messages_for_summary ++ [("u", "t")]).map fun p => p.1 ++ ": " ++ p.2)))))) :=
  ⟨fun _ => rfl, C10_count_eq_window (fun _ => Except.ok "s") convInit 1 "u" "t" (fun _ => rfl)⟩

/-- C4: storing two messages with the same id leaves exactly one row for
that id, carrying the second message's fields — the store is an upsert
keyed on `message_id`, not an append-only log. -/
theorem C4_store_is_upsert (db : List Row) (m1 m2 : TgMessage)
    (hid : m1.message_id = m2.message_id) :
    (store_message (store_message db m1) m2).filter
        (fun r => decide (r.message_id = m2.message_id)) = [messageRow m2] ∧
    store_message (store_message [] m1) m2 = [messageRow m2] := by
  have hrow2 : (messageRow m2).message_id = m2.message_id := rfl
  have hrow1 : (messageRow m1).message_id = m2.message_id := by
    rw [← hid]
    rfl
  constructor
  · simp [store_message, List.filter_append, List.filter_filter, hrow2]
    intro a _ h1 h2
    exact absurd h1 h2
  · simp [store_message, hrow1, hrow2]

/-- Concrete instance of C4: message id 1 stored twice, the second store
("edited") wins. -/
theorem C4_witness :
    (store_message (store_message []
        ⟨1, 5, some "hello", [], none, none, none, 100, some ⟨7, some "bob", false⟩⟩)
        ⟨1, 5, some "edited", [], none, none, none, 101, some ⟨7, some "bob", false⟩⟩).filter
        (fun r => decide (r.message_id =
          (⟨1, 5, some "edited", [], none, none, none, 101, some ⟨7, some "bob", false⟩⟩ :
            TgMessage).message_id)) =
      [messageRow ⟨1, 5, some "edited", [], none, none, none, 101, some ⟨7, some "bob", false⟩⟩] ∧
    store_message (store_message []
        ⟨1, 5, some "hello", [], none, none, none, 100, some ⟨7, some "bob", false⟩⟩)
        ⟨1, 5, some "edited", [], none, none, none, 101, some ⟨7, some "bob", false⟩⟩ =
      [messageRow ⟨1, 5, some "edited", [], none, none, none, 101, some ⟨7, some "bob", false⟩⟩] :=
  C4_store_is_upsert []
    ⟨1, 5, some "hello", [], none, none, none, 100, some ⟨7, some "bob", false⟩⟩
    ⟨1, 5, some "edited", [], none, none, none, 101, some ⟨7, some "bob", false⟩⟩ rfl

/-- C3 (amended): `get_messages_in_chat_since` returns exactly the rows of
the chat with `date ≥ cutoff` and non-empty content, in non-decreasing
date order, each rendered by `formatMessageRow` — that is, as
`"<display_name> (<timestamp rendering>): <content>"`, with the
display name falling back to `"Anonymous"`, not as the claimed bare
`"<display_name>: <content>"`. -/
theorem C3_recent_since_amended (fmt : Int → String) (db : List Row) (chat ts : Int) :
    ∃ rows : List Row,
      get_messages_in_chat_since fmt db chat ts = rows.map (formatMessageRow fmt) ∧
      rows.Perm (db.filter (rowSincePred chat ts)) ∧
      rows.Pairwise dateLe :=
  ⟨List.insertionSort dateLe (db.filter (rowSincePred chat ts)), rfl,
    List.perm_insertionSort dateLe _, List.sorted_insertionSort dateLe _⟩

/-- C3 counterexample: a single matching row with username "alice",
content "hi" and timestamp 100 is rendered with the timestamp in the
middle, `"alice (100): hi"`, not as the claimed `"alice: hi"`. -/
theorem C3_render_counterexample :
    get_messages_in_chat_since (fun d => toString d)
        [⟨1, 5, some 7, some "alice", "text", "hi", none, 100, none, false⟩] 5 0 =
      ["alice (100): hi"] ∧
    get_messages_in_chat_since (fun d => toString d)
        [⟨1, 5, some 7, some "alice", "text", "hi", none, 100, none, false⟩] 5 0 ≠
      ["alice: hi"] := by
  constructor <;> decide

/-- C2 counterexample: a `/whitelist` command message is consumed by
`CommandHandler("whitelist", handle_whitelist_command)`, which performs its
authorization gate without ever persisting the inbound message — the store
event never happens for it, refuting "persistence always happens before any
authorization check" and "an unauthorized message is still recorded". -/
theorem C2_counterexample :
    dispatchTrace "/research" "/summarize" "/art" (some "/whitelist @bob") =
      [Event.authCheck] ∧
    Event.store ∉ dispatchTrace "/research" "/summarize" "/art" (some "/whitelist @bob") := by
  constructor <;> decide

/-- C2 (amended): for every inbound message that is not addressed to the
`/whitelist` or `/whitelist_group` command handlers, the generic handler
persists the message first — before any authorization check — and the
trigger evaluator is never invoked at all (it is not registered). -/
theorem C2_store_before_auth_amended (researchCmd summarizeCmd artCmd : String)
    (t : String) (h1 : cmdToken t ≠ "/whitelist") (h2 : cmdToken t ≠ "/whitelist_group") :
    (∃ rest, dispatchTrace researchCmd summarizeCmd artCmd (some t) =
      Event.store :: rest) ∧
    Event.triggerEval ∉ dispatchTrace researchCmd summarizeCmd artCmd (some t) ∧
    dispatchTrace researchCmd summarizeCmd artCmd none = [Event.store] := by
  refine ⟨?_, ?_, rfl⟩
  · simp only [dispatchTrace]
    rw [if_neg h1, if_neg h2]
    exact ⟨_, rfl⟩
  · simp only [dispatchTrace]
    rw [if_neg h1, if_neg h2]
    intro hmem
    rcases List.mem_cons.mp hmem with h | h
    · exact absurd h (by decide)
    · revert h
      split
      · decide
      · split
        · decide
        · split
          · decide
          · decide

/-- Concrete instance of amended C2: an ordinary text message is stored
first and nothing else precedes the store. -/
theorem C2_witness :
    (∃ rest, dispatchTrace "/research" "/summarize" "/art" (some "hello world") =
      Event.store :: rest) ∧
    Event.triggerEval ∉ dispatchTrace "/research" "/summarize" "/art" (some "hello world") ∧
    dispatchTrace "/research" "/summarize" "/art" none = [Event.store] :=
  C2_store_before_auth_amended "/research" "/summarize" "/art" "hello world"
    (by decide) (by decide)

/-- Lowercasing never turns a non-whitespace character into whitespace. -/
theorem ws_pyLowerChar (c : Char) (h : Char.isWhitespace c = false) :
    Char.isWhitespace (pyLowerChar c) = false := by
  unfold pyLowerChar
  split
  · next hrange =>
    have hv : (c.toNat + 32).isValidChar := Or.inl (by omega)
    have ht : (Char.ofNat (c.toNat + 32)).toNat = c.toNat + 32 := by
      rw [Char.ofNat, dif_pos hv]
      rfl
    simp only [Char.isWhitespace, Bool.or_eq_false_iff, decide_eq_false_iff_not]
    refine ⟨⟨⟨?_, ?_⟩, ?_⟩, ?_⟩ <;> (intro he; rw [he] at ht; simp at ht; all_goals omega)
  · exact h

/-- The head of a `dropWhile p` result never satisfies `p`. -/
theorem dropWhile_head_false (p : Char → Bool) (l : List Char) :
    ∀ c, (l.dropWhile p).head? = some c → p c = false := by
  induction l with
  | nil => simp
  | cons x t ih =>
    intro c
    rw [List.dropWhile_cons]
    by_cases hp : p x
    · rw [if_pos hp]
      exact ih c
    · rw [if_neg hp, List.head?_cons]
      intro hsome
      obtain rfl : x = c := Option.some.inj hsome
      simpa using hp

/-- `dropWhile` only removes a prefix. -/
theorem dropWhile_suffix_decomp (p : Char → Bool) (l : List Char) :
    ∃ pre, l = pre ++ l.dropWhile p := by
  induction l with
  | nil => exact ⟨[], rfl⟩
  | cons x t ih =>
    by_cases hp : p x
    · obtain ⟨pre, hpre⟩ := ih
      refine ⟨x :: pre, ?_⟩
      rw [List.dropWhile_cons, if_pos hp, List.cons_append, ← hpre]
    · exact ⟨[], by rw [List.dropWhile_cons, if_neg hp]; rfl⟩

/-- The first character of a stripped string is not whitespace. -/
theorem pyStrip_head (l : List Char) :
    ∀ c, (pyStripList l).head? = some c → Char.isWhitespace c = false := by
  intro c hc
  unfold pyStripList at hc
  rw [List.head?_reverse] at hc
  obtain ⟨pre, hpre⟩ :=
    dropWhile_suffix_decomp Char.isWhitespace (l.dropWhile Char.isWhitespace).reverse
  have hA : (l.dropWhile Char.isWhitespace).reverse.getLast? = some c := by
    rw [hpre, List.getLast?_append_of_ne_nil]
    · exact hc
    · intro hnil
      rw [hnil] at hc
      simp at hc
  rw [List.getLast?_reverse] at hA
  exact dropWhile_head_false Char.isWhitespace l c hA

/-- The last character of a stripped string is not whitespace. -/
theorem pyStrip_last (l : List Char) :
    ∀ c, (pyStripList l).getLast? = some c → Char.isWhitespace c = false := by
  intro c hc
  unfold pyStripList at hc
  rw [List.getLast?_reverse] at hc
  exact dropWhile_head_false Char.isWhitespace _ c hc

/-- `isSub` decides the existence of an occurrence: `needle` occurs in
`hay` iff `hay` splits as `a ++ needle ++ b`. -/
theorem isSub_iff (n : List Char) :
    ∀ l, isSub n l = true ↔ ∃ a b, l = a ++ n ++ b := by
  intro l
  induction l with
  | nil =>
    simp only [isSub, decide_eq_true_eq]
    constructor
    · rintro rfl
      exact ⟨[], [], rfl⟩
    · rintro ⟨a, b, hab⟩
      rcases List.append_eq_nil.mp hab.symm with ⟨h1, h2⟩
      exact (List.append_eq_nil.mp h1).2
  | cons c t ih =>
    simp only [isSub, Bool.or_eq_true, decide_eq_true_eq]
    constructor
    · rintro (htake | hsub)
      · refine ⟨[], (c :: t).drop n.length, ?_⟩
        conv_lhs => rw [← List.take_append_drop n.length (c :: t)]
        rw [htake, List.nil_append]
      · obtain ⟨a, b, hab⟩ := ih.mp hsub
        exact ⟨c :: a, b, by simp [hab]⟩
    · rintro ⟨a, b, hab⟩
      match a with
      | [] =>
        left
        rw [List.nil_append] at hab
        rw [hab, List.take_left]
      | x :: a2 =>
        right
        rw [List.cons_append, List.cons_append] at hab
        injection hab with hx ht
        exact ih.mpr ⟨a2, b, ht⟩

/-- An occurrence whose first character does not satisfy `p` survives
`dropWhile p`. -/
theorem occ_dropWhile (p : Char → Bool) (c0 : Char) (n0 : List Char)
    (hc : p c0 = false) :
    ∀ a b : List Char, ∃ a2 b2,
      (a ++ (c0 :: n0) ++ b).dropWhile p = a2 ++ (c0 :: n0) ++ b2 := by
  intro a b
  induction a with
  | nil =>
    refine ⟨[], b, ?_⟩
    rw [List.nil_append, List.cons_append, List.dropWhile_cons, if_neg (by simp [hc])]
  | cons x xs ih =>
    by_cases hx : p x
    · obtain ⟨a2, b2, hres⟩ := ih
      refine ⟨a2, b2, ?_⟩
      rw [List.cons_append, List.cons_append, List.dropWhile_cons, if_pos hx]
      exact hres
    · refine ⟨x :: xs, b, ?_⟩
      rw [List.cons_append, List.cons_append, List.dropWhile_cons, if_neg hx]

/-- An occurrence of a needle with non-whitespace first and last characters
survives stripping the haystack. -/
theorem occ_strip (n l : List Char) (hne : n ≠ [])
    (hh : ∀ c, n.head? = some c → Char.isWhitespace c = false)
    (hl : ∀ c, n.getLast? = some c → Char.isWhitespace c = false)
    (h : isSub n l = true) : isSub n (pyStripList l) = true := by
  rw [isSub_iff] at h ⊢
  obtain ⟨a, b, rfl⟩ := h
  obtain ⟨c0, n0, rfl⟩ : ∃ c0 n0, n = c0 :: n0 := by
    cases n with
    | nil => exact absurd rfl hne
    | cons c0 n0 => exact ⟨c0, n0, rfl⟩
  have hc0 : Char.isWhitespace c0 = false := hh c0 rfl
  obtain ⟨a2, b2, hA⟩ := occ_dropWhile Char.isWhitespace c0 n0 hc0 a b
  obtain ⟨c1, m1, hnrev⟩ : ∃ c1 m1, (c0 :: n0).reverse = c1 :: m1 := by
    have hx : (c0 :: n0).reverse ≠ [] := by simp
    cases hrev : (c0 :: n0).reverse with
    | nil => exact absurd hrev hx
    | cons c1 m1 => exact ⟨c1, m1, rfl⟩
  have hc1 : Char.isWhitespace c1 = false := by
    refine hl c1 ?_
    rw [← List.head?_reverse, hnrev]
    rfl
  obtain ⟨a3, b3, hB⟩ := occ_dropWhile Char.isWhitespace c1 m1 hc1 b2.reverse a2.reverse
  refine ⟨b3.reverse, a3.reverse, ?_⟩
  unfold pyStripList
  rw [hA]
  have hrev2 : (a2 ++ (c0 :: n0) ++ b2).reverse =
      b2.reverse ++ (c1 :: m1) ++ a2.reverse := by
    rw [← hnrev]
    simp only [List.reverse_append, List.append_assoc]
  rw [hrev2, hB]
  have hn : (c1 :: m1).reverse = c0 :: n0 := by
    rw [← hnrev, List.reverse_reverse]
  simp only [List.reverse_append, hn, List.append_assoc]

/-- Every configured keyword (an entry of `KEYWORDS_LIST`) is non-empty
and has non-whitespace first and last characters, because the construction
strips each raw entry and drops the empty ones, and lowercasing preserves
non-whitespace. -/
theorem keyword_facts (raw kw : String) (hkw : kw ∈ keywordsList raw) :
    kw.data ≠ [] ∧
    (∀ c, kw.data.head? = some c → Char.isWhitespace c = false) ∧
    (∀ c, kw.data.getLast? = some c → Char.isWhitespace c = false) := by
  unfold keywordsList at hkw
  rw [List.mem_filterMap] at hkw
  obtain ⟨k, _, hres⟩ := hkw
  by_cases hks : pyStripList k = []
  · rw [if_pos hks] at hres
    exact absurd hres (by simp)
  · rw [if_neg hks] at hres
    have hdata : kw.data = pyLowerList (pyStripList k) := by
      have := Option.some.inj hres
      rw [← this]
    refine ⟨?_, ?_, ?_⟩
    · rw [hdata]
      simpa [pyLowerList] using hks
    · intro c hc
      rw [hdata] at hc
      unfold pyLowerList at hc
      rw [List.head?_map] at hc
      obtain ⟨c0, hc0, rfl⟩ := Option.map_eq_some'.mp hc
      exact ws_pyLowerChar c0 (pyStrip_head k c0 hc0)
    · intro c hc
      rw [hdata] at hc
      unfold pyLowerList at hc
      rw [List.getLast?_map] at hc
      obtain ⟨c0, hc0, rfl⟩ := Option.map_eq_some'.mp hc
      exact ws_pyLowerChar c0 (pyStrip_last k c0 hc0)

/-- Reduction of `handle_criteria_check` when enabled and a keyword
matches: the summary is still updated, but no judgment call is made and the
decision is the full original message text. -/
theorem hcc_trigger (kws : List String) (criteria : String)
    (summC judgeC : String → Except String String) (data : ConvData) (chat : Int)
    (user : Option TgUser) (text : Option String)
    (htrig : (kws.any fun kw =>
      isSub kw.data (strTrim (strLower (text.getD ""))).data) = true) :
    handle_criteria_check false kws criteria summC judgeC data chat user text =
      ⟨(maintain_criteria_summary summC data chat (anonymousName user) (text.getD "")).data,
       (maintain_criteria_summary summC data chat (anonymousName user) (text.getD "")).refreshIssued,
       (maintain_criteria_summary summC data chat (anonymousName user) (text.getD "")).refreshPrompt,
       false, none, none, some (text.getD "")⟩ := by
  simp only [handle_criteria_check, Bool.false_eq_true, if_false, htrig, if_true]

/-- Reduction of `handle_criteria_check` when enabled and no keyword
matches: the (already-updated) summary is read, the judgment prompt is
built from it and sent, and the reply is parsed — an exception yields no
decision. -/
theorem hcc_no_trigger (kws : List String) (criteria : String)
    (summC judgeC : String → Except String String) (data : ConvData) (chat : Int)
    (user : Option TgUser) (text : Option String)
    (htrig : (kws.any fun kw =>
      isSub kw.data (strTrim (strLower (text.getD ""))).data) = false) :
    handle_criteria_check false kws criteria summC judgeC data chat user text =
      match judgeC (judgmentPromptOf
          ((maintain_criteria_summary summC data chat (anonymousName user) (text.getD "")).data chat).summary
          (anonymousName user) (text.getD "") criteria) with
      | Except.ok resp =>
        ⟨(maintain_criteria_summary summC data chat (anonymousName user) (text.getD "")).data,
         (maintain_criteria_summary summC data chat (anonymousName user) (text.getD "")).refreshIssued,
         (maintain_criteria_summary summC data chat (anonymousName user) (text.getD "")).refreshPrompt,
         true,
         some (judgmentPromptOf
           ((maintain_criteria_summary summC data chat (anonymousName user) (text.getD "")).data chat).summary
           (anonymousName user) (text.getD "") criteria),
         some ((maintain_criteria_summary summC data chat (anonymousName user) (text.getD "")).data chat).summary,
         parseJudgment resp (text.getD "")⟩
      | Except.error _ =>
        ⟨(maintain_criteria_summary summC data chat (anonymousName user) (text.getD "")).data,
         (maintain_criteria_summary summC data chat (anonymousName user) (text.getD "")).refreshIssued,
         (maintain_criteria_summary summC data chat (anonymousName user) (text.getD "")).refreshPrompt,
         true,
         some (judgmentPromptOf
           ((maintain_criteria_summary summC data chat (anonymousName user) (text.getD "")).data chat).summary
           (anonymousName user) (text.getD "") criteria),
         some ((maintain_criteria_summary summC data chat (anonymousName user) (text.getD "")).data chat).summary,
         none⟩ := by
  simp only [handle_criteria_check, Bool.false_eq_true, if_false, htrig]

/-- C6: when a configured keyword occurs case-insensitively in the message
text, the evaluator acts with the full original message text as the query
and never issues the judgment model call. -/
theorem C6_keyword_short_circuit (raw criteria : String)
    (summC judgeC : String → Except String String) (data : ConvData) (chat : Int)
    (user : Option TgUser) (t kw : String)
    (hkw : kw ∈ keywordsList raw)
    (hsub : isSub kw.data (strLower t).data = true) :
    (handle_criteria_check false (keywordsList raw) criteria summC judgeC
      data chat user (some t)).judgmentIssued = false ∧
    (handle_criteria_check false (keywordsList raw) criteria summC judgeC
      data chat user (some t)).judgmentPrompt = none ∧
    (handle_criteria_check false (keywordsList raw) criteria summC judgeC
      data chat user (some t)).decision = some t := by
  obtain ⟨hne, hh, hl⟩ := keyword_facts raw kw hkw
  have hsub2 : isSub kw.data (strTrim (strLower t)).data = true :=
    occ_strip kw.data (strLower t).data hne hh hl hsub
  have htrig : ((keywordsList raw).any fun kw2 =>
      isSub kw2.data (strTrim (strLower ((some t).getD ""))).data) = true :=
    List.any_eq_true.mpr ⟨kw, hkw, by simpa using hsub2⟩
  rw [hcc_trigger (keywordsList raw) criteria summC judgeC data chat user (some t) htrig]
  exact ⟨rfl, rfl, rfl⟩

/-- Concrete instance of C6: keyword list "urgent" and message
"this is urgent" act immediately with the whole message as query. -/
theorem C6_witness :
    "urgent" ∈ keywordsList "urgent" ∧
    isSub ("urgent" : String).data (strLower "this is urgent").data = true ∧
    ((handle_criteria_check false (keywordsList "urgent") "crit"
        (fun _ => Except.ok "sum") (fun _ => Except.ok "YES: x") convInit 1 none
        (some "this is urgent")).judgmentIssued = false ∧
    (handle_criteria_check false (keywordsList "urgent") "crit"
        (fun _ => Except.ok "sum") (fun _ => Except.ok "YES: x") convInit 1 none
        (some "this is urgent")).judgmentPrompt = none ∧
    (handle_criteria_check false (keywordsList "urgent") "crit"
        (fun _ => Except.ok "sum") (fun _ => Except.ok "YES: x") convInit 1 none
        (some "this is urgent")).decision = some "this is urgent") :=
  ⟨by decide, by decide,
    C6_keyword_short_circuit "urgent" "crit" (fun _ => Except.ok "sum")
      (fun _ => Except.ok "YES: x") convInit 1 none "this is urgent" "urgent"
      (by decide) (by decide)⟩

/-- C7 counterexample: the code strips the model reply before testing for
the `"YES:"` prefix, so the reply `" YES: pizza"` — which does not start
with `"YES:"` — still produces the action `Act("pizza")`, refuting the
claimed iff on the raw reply. -/
theorem C7_counterexample :
    (handle_criteria_check false [] "crit" (fun _ => Except.ok "sum")
        (fun _ => Except.ok " YES: pizza") convInit 1 none (some "hi")).decision =
      some "pizza" ∧
    ¬ (" YES: pizza" : String).data.take 4 = ("YES:" : String).data := by
  constructor <;> decide

/-- C7 (amended): at the judgment step (enabled, no keyword match), the
evaluator acts iff the *stripped* model reply starts with `"YES:"`, the
query being the text after that prefix, stripped, with the original message
text as fallback when it is empty; any other reply and any collaborator
exception yield no action, and the call is made in both cases. -/
theorem C7_judgment_parse_amended (kws : List String) (criteria : String)
    (summC : String → Except String String) (data : ConvData) (chat : Int)
    (user : Option TgUser) (text : Option String) (reply e : String)
    (htrig : (kws.any fun kw =>
      isSub kw.data (strTrim (strLower (text.getD ""))).data) = false) :
    (handle_criteria_check false kws criteria summC (fun _ => Except.ok reply)
      data chat user text).judgmentIssued = true ∧
    (handle_criteria_check false kws criteria summC (fun _ => Except.ok reply)
      data chat user text).decision =
      (if (strTrim reply).data.take 4 = ("YES:" : String).data then
        some (if strTrim ⟨(strTrim reply).data.drop 4⟩ = "" then text.getD ""
          else strTrim ⟨(strTrim reply).data.drop 4⟩)
      else none) ∧
    (handle_criteria_check false kws criteria summC (fun _ => Except.error e)
      data chat user text).judgmentIssued = true ∧
    (handle_criteria_check false kws criteria summC (fun _ => Except.error e)
      data chat user text).decision = none := by
  refine ⟨?_, ?_, ?_, ?_⟩
  · rw [hcc_no_trigger kws criteria summC (fun _ => Except.ok reply)
      data chat user text htrig]
  · rw [hcc_no_trigger kws criteria summC (fun _ => Except.ok reply)
      data chat user text htrig]
    rfl
  · rw [hcc_no_trigger kws criteria summC (fun _ => Except.error e)
      data chat user text htrig]
  · rw [hcc_no_trigger kws criteria summC (fun _ => Except.error e)
      data chat user text htrig]

/-- Concrete instance of amended C7: reply "YES: best pizza in Rome" acts
with that query; an exception acts not at all. -/
theorem C7_witness :
    (handle_criteria_check false [] "crit" (fun _ => Except.ok "sum")
      (fun _ => Except.ok "YES: best pizza in Rome") convInit 1 none
      (some "hi")).judgmentIssued = true ∧
    (handle_criteria_check false [] "crit" (fun _ => Except.ok "sum")
      (fun _ => Except.ok "YES: best pizza in Rome") convInit 1 none
      (some "hi")).decision =
      (if (strTrim "YES: best pizza in Rome").data.take 4 = ("YES:" : String).data then
        some (if strTrim ⟨(strTrim "YES: best pizza in Rome").data.drop 4⟩ = ""
          then (some "hi" : Option String).getD ""
          else strTrim ⟨(strTrim "YES: best pizza in Rome").data.drop 4⟩)
      else none) ∧
    (handle_criteria_check false [] "crit" (fun _ => Except.ok "sum")
      (fun _ => Except.error "boom") convInit 1 none
      (some "hi")).judgmentIssued = true ∧
    (handle_criteria_check false [] "crit" (fun _ => Except.ok "sum")
      (fun _ => Except.error "boom") convInit 1 none
      (some "hi")).decision = none :=
  C7_judgment_parse_amended [] "crit" (fun _ => Except.ok "sum") convInit 1 none
    (some "hi") "YES: best pizza in Rome" "boom" (by decide)

set_option maxRecDepth 16384 in
/-- C9 counterexample: on a window-boundary message (here the 10th), the
digest is refreshed *before* the judgment and the refreshed digest is built
from a window that includes the current message — with an identity
summarizer, the digest used for judging "zebra" visibly contains "zebra",
and differs from the pre-message digest (the empty string). -/
theorem C9_counterexample :
    (handle_criteria_check false [] "crit" (fun p => Except.ok p)
        (fun _ => Except.ok "NO") (fun _ => ⟨9, "", List.replicate 9 ("u", "a")⟩) 1 none
        (some "zebra")).digestUsed ≠ some "" ∧
    isSub ("zebra" : String).data
      (((handle_criteria_check false [] "crit" (fun p => Except.ok p)
        (fun _ => Except.ok "NO") (fun _ => ⟨9, "", List.replicate 9 ("u", "a")⟩) 1 none
        (some "zebra")).digestUsed.getD "").data) = true := by
  constructor <;> decide

/-- C9 (amended): the digest embedded in the judgment prompt is the digest
*after* the rolling-summary update for the current message; off window
boundaries this equals the digest from before the message (so the current
message is invisible in it), but on every 10th message the refresh that
runs first summarizes a window including the current message. -/
theorem C9_digest_amended (kws : List String) (criteria : String)
    (summC judgeC : String → Except String String) (data : ConvData) (chat : Int)
    (user : Option TgUser) (text : Option String)
    (htrig : (kws.any fun kw =>
      isSub kw.data (strTrim (strLower (text.getD ""))).data) = false) :
    (handle_criteria_check false kws criteria summC judgeC data chat user text).digestUsed =
      some (((maintain_criteria_summary summC data chat (anonymousName user)
        (text.getD "")).data chat).summary) ∧
    (((data chat).message_count + 1) % 10 ≠ 0 →
      (handle_criteria_check false kws criteria summC judgeC data chat user text).digestUsed =
        some ((data chat).summary)) := by
  have hbase : (handle_criteria_check false kws criteria summC judgeC
      data chat user text).digestUsed =
      some (((maintain_criteria_summary summC data chat (anonymousName user)
        (text.getD "")).data chat).summary) := by
    rw [hcc_no_trigger kws criteria summC judgeC data chat user text htrig]
    split <;> rfl
  refine ⟨hbase, fun hmod => ?_⟩
  rw [hbase, maintain_summary_off summC data chat (anonymousName user) (text.getD "") hmod]

/-- Concrete instance of amended C9: off a boundary (first message of a
chat), the digest used for judgment is the pre-message digest. -/
theorem C9_witness :
    (([] : List String).any fun kw =>
      isSub kw.data (strTrim (strLower ((some "hi" : Option String).getD ""))).data) = false ∧
    ((handle_criteria_check false [] "crit" (fun _ => Except.ok "sum")
        (fun _ => Except.ok "NO") convInit 1 none (some "hi")).digestUsed =
      some (((maintain_criteria_summary (fun _ => Except.ok "sum") convInit 1
        (anonymousName none) ((some "hi" : Option String).getD "")).data 1).summary) ∧
    (((convInit 1).message_count + 1) % 10 ≠ 0 →
      (handle_criteria_check false [] "crit" (fun _ => Except.ok "sum")
          (fun _ => Except.ok "NO") convInit 1 none (some "hi")).digestUsed =
        some ((convInit 1).summary))) :=
  ⟨by decide, C9_digest_amended [] "crit" (fun _ => Except.ok "sum")
    (fun _ => Except.ok "NO") convInit 1 none (some "hi") (by decide)⟩

end TelegramBot
